import Mathlib

/-!
# Verification of the enroute traffic-data fusion core and METAR expiry

Shallow embedding of:
* `src/src/Meteorologist_METAR.cpp` — METAR expiration and expiry test
  (translated directly from the C++ source);
* `src/src/traffic/TrafficDataProvider.h` — the traffic data provider.
  Only the class declaration is in the sources; the member-function bodies
  (the `.cpp` file) are not.  The provider's behaviour is therefore modelled
  from the specification and from the documentation comments in the header,
  as indicated on each definition.

Machine integers are modelled as `Int`/`Nat`; none of the embedded
computations can overflow their C++ types on the inputs considered.
-/

namespace Enroute

/-! ## Strings: substring containment (models QString::contains) -/

/-- `matchesAt pat txt` is true when `pat` occurs at the very start of `txt`.
Helper for the model of `QString::contains`. -/
def matchesAt : List Char → List Char → Bool
  | [], _ => true
  | _ :: _, [] => false
  | p :: ps, c :: cs => p == c && matchesAt ps cs

/-- `containsSub pat txt` is true when `pat` occurs contiguously somewhere in
`txt`.  Helper for the model of `QString::contains`. -/
def containsSub : List Char → List Char → Bool
  | pat, [] => matchesAt pat []
  | pat, c :: cs => matchesAt pat (c :: cs) || containsSub pat cs

/-- Model of `QString::contains(pat)` (case-sensitive, the Qt default used in
`Meteorologist_METAR.cpp`). -/
def strContains (s pat : String) : Bool :=
  containsSub pat.toList s.toList

/-! ## QDateTime

A `QDateTime` is either invalid or a valid instant, identified with its
number of milliseconds since the epoch (Qt compares two valid `QDateTime`s
by comparing the instants they denote, regardless of time zone). -/

/-- Model of Qt's `QDateTime`: invalid, or a valid instant in milliseconds
since the epoch. -/
inductive QDateTime where
  | invalid : QDateTime
  | valid : Int → QDateTime
deriving DecidableEq, Repr

/-- Model of `QDateTime::isValid()`. -/
def QDateTime.isValid : QDateTime → Bool
  | .invalid => false
  | .valid _ => true

/-- Model of `QDateTime::addSecs(s)`: adding seconds to an invalid datetime
yields an invalid datetime. -/
def QDateTime.addSecs : QDateTime → Int → QDateTime
  | .invalid, _ => .invalid
  | .valid t, s => .valid (t + s * 1000)

/-! ## METAR (from `src/src/Meteorologist_METAR.cpp`)

Only the fields that `expiration()` and `isExpired()` read are embedded:
`_raw_text` and `_observationTime`. -/

/-- The fields of `Meteorologist::METAR` read by `expiration()` and
`isExpired()`. -/
structure METAR where
  raw_text : String
  observationTime : QDateTime
deriving DecidableEq, Repr

/-- Translation of `Meteorologist::METAR::expiration()`:
`_observationTime.addSecs(3*60*60)` when `_raw_text.contains("NOSIG")`,
`_observationTime.addSecs(1.5*60*60)` (= 5400 seconds, after the implicit
conversion to `qint64`) otherwise. -/
def METAR.expiration (m : METAR) : QDateTime :=
  if strContains m.raw_text "NOSIG" then m.observationTime.addSecs (3 * 60 * 60)
  else m.observationTime.addSecs 5400

/-- Translation of `Meteorologist::METAR::isExpired()`.  `now` stands for
`QDateTime::currentDateTime()` (always a valid instant); the C++ compares
`now > exp` after checking that `exp` is valid. -/
def METAR.isExpired (m : METAR) (now : Int) : Bool :=
  match m.expiration with
  | .invalid => false
  | .valid e => now > e

end Enroute

namespace Enroute

/-! ## Traffic data model

The class `Traffic::TrafficDataProvider` is declared in
`src/src/traffic/TrafficDataProvider.h`, but the bodies of its member
functions are not among the sources.  The definitions below are therefore
modelled from the specification (sections 3, 4.1, 4.2) and, where the header
itself documents behaviour, from the documentation comments of the header.
Time is a discrete `Nat` clock; the provider's serialized update path is a
sequence of pure state transitions. -/

/-- Modelled from the spec: `TrafficFactor` value type — identity (empty
string means an anonymous contact), ThreatLevel (ordered, 0 = None up to
4 = Alarm), distance, validity flag and last-update timestamp. -/
structure TrafficFactor where
  identity : String
  threatLevel : Nat
  distance : Nat
  valid : Bool
  timestamp : Nat
deriving DecidableEq, Repr

/-- Modelled from the spec: `FLARMWarning` value type — `alarmLevel = -1`
is the "no active warning" sentinel, `0..N` increasing urgency. -/
structure FLARMWarning where
  alarmLevel : Int
deriving DecidableEq, Repr

/-- The "no active warning" sentinel (`alarmLevel == -1`). -/
def noWarning : FLARMWarning := ⟨-1⟩

/-- Modelled from the spec: the liveness-relevant view of one `DataSource`:
whether it is currently live (connected, not errored) and whether it
currently reports heartbeat-level liveness within its own freshness
window. -/
structure Source where
  live : Bool
  heartbeat : Bool
deriving DecidableEq, Repr

/-- Aggregate connection state of the provider. -/
inductive ConnState where
  | disconnected : ConnState
  | connecting : ConnState
  | connected : ConnState
deriving DecidableEq, Repr

/-- Modelled from the spec: the fixed staleness window (seconds of the
discrete clock) after which a factor with no update becomes invalid. -/
def stalenessWindow : Nat := 10

/-- Modelled from the spec: the fixed duration for which an accepted FLARM
warning remains active ("resets its own expiry timer, fixed duration from
time of receipt"). -/
def flarmWarningTimeout : Nat := 4

/-- Modelled from the spec: the fixed maximum size of the visible traffic
list. -/
def maxTrafficObjects : Nat := 20

/-- Modelled from the spec: the state owned by `TrafficDataProvider`:
visible traffic list, single position-less slot, current warning with its
expiry deadline (`m_FLARMWarningTimer`), per-source liveness, the cached
`m_receiving` flag, aggregate connection state, the count of connection
attempts started so far, and whether the reconnection supervision timer
(`reconnectionTimer`) is running. -/
structure ProviderState where
  trafficObjects : List TrafficFactor
  noPosFactor : Option TrafficFactor
  warning : FLARMWarning
  warningExpiry : Option Nat
  sources : List Source
  receiving : Bool
  connState : ConnState
  attemptCount : Nat
  reconnTimerActive : Bool
deriving DecidableEq, Repr

/-- Getter of the `receivingHeartbeat` property (the cached `m_receiving`). -/
def receivingHeartbeat (s : ProviderState) : Bool :=
  s.receiving

/-- A factor as the provider records it on receipt: fields of the report,
with the last-update timestamp stamped to the time of receipt and the
validity flag set. -/
def stamp (now : Nat) (f : TrafficFactor) : TrafficFactor :=
  { f with timestamp := now, valid := true }

/-- A factor is stale at time `now` when its last-update timestamp is older
than the fixed staleness window. -/
def staleAt (now : Nat) (f : TrafficFactor) : Bool :=
  decide (f.timestamp + stalenessWindow < now)

/-- Ranking: `rankLE a b` holds when `a` is at least as relevant as `b` —
primarily ThreatLevel descending, secondarily distance ascending on
ThreatLevel ties. -/
def rankLE (a b : TrafficFactor) : Bool :=
  decide (b.threatLevel < a.threatLevel) ||
    (a.threatLevel == b.threatLevel && decide (a.distance ≤ b.distance))

/-- A factor is marked invalid once stale; it stays in the list and slot.
Modelled from the header documentation (`TrafficDataProvider.h:87-95`,
`106-111`): "only the valid items in this list pertain to actual traffic.
Invalid items should be ignored" / "This item should be ignored if
invalid" — consumers skip invalid items; the provider does not remove
them. -/
def markStale (now : Nat) (x : TrafficFactor) : TrafficFactor :=
  if staleAt now x then { x with valid := false } else x

/-- The staleness sweep performed on every aggregation pass: factors older
than the fixed staleness window are marked invalid.  Per the header
documentation they remain in the list and in the position-less slot for
consumers to skip (see `markStale`); nothing is removed. -/
def sweep (now : Nat) (s : ProviderState) : ProviderState :=
  { s with
    trafficObjects := s.trafficObjects.map (markStale now)
    noPosFactor := s.noPosFactor.map (markStale now) }

/-- Modelled from the spec: identity merge — a report whose non-empty
identity is already present overwrites that entry in place; an empty
(anonymous) identity is never merged, and a new identity is appended. -/
def mergeFactor (f : TrafficFactor) : List TrafficFactor → List TrafficFactor
  | [] => [f]
  | x :: xs =>
    if f.identity == x.identity && !(f.identity == "") then f :: xs
    else x :: mergeFactor f xs

/-- True when the list already holds an entry with the report's identity. -/
def hasIdentity (f : TrafficFactor) (l : List TrafficFactor) : Bool :=
  l.any fun x => f.identity == x.identity

/-- Modelled from the spec ("factors beyond the cap are dropped starting
from the least relevant"), for a full list: the report overwrites, in
place, the first entry that is strictly less relevant than it; when every
entry is at least as relevant, the report is dropped.  The list is never
reordered. -/
def replaceFirstLess (f : TrafficFactor) : List TrafficFactor → List TrafficFactor
  | [] => []
  | x :: xs => if !rankLE x f then f :: xs else x :: replaceFirstLess f xs

/-- Insertion of a stamped report into the visible list, which per the
header documentation (`TrafficDataProvider.h:92`) "is not sorted in any
way": an entry with the same non-empty identity is overwritten in place;
otherwise the report is appended while the list is below the fixed maximum
size, and replaces a less relevant entry (or is dropped) when the list is
full. -/
def insertFactor (f : TrafficFactor) (l : List TrafficFactor) : List TrafficFactor :=
  if decide (l.length < maxTrafficObjects) || (!(f.identity == "") && hasIdentity f l) then
    mergeFactor f l
  else replaceFirstLess f l

/-- Handler `onTrafficFactorWithPosition` — one aggregation pass: staleness
sweep (mark, not remove), then insertion of the stamped report into the
unsorted, size-capped visible list. -/
def onTrafficFactorWithPosition (now : Nat) (f : TrafficFactor)
    (s : ProviderState) : ProviderState :=
  let s1 := sweep now s
  { s1 with trafficObjects := insertFactor (stamp now f) s1.trafficObjects }

/-- Handler `onTrafficFactorWithoutPosition` — one aggregation pass:
staleness sweep (mark, not remove), then the single position-less slot
keeps the most urgent contact: a report of strictly lower urgency than a
still-valid slot is discarded, any other overwrites the slot with a
refreshed timestamp. -/
def onTrafficFactorWithoutPosition (now : Nat) (f : TrafficFactor)
    (s : ProviderState) : ProviderState :=
  let s1 := sweep now s
  { s1 with
    noPosFactor :=
      match s1.noPosFactor with
      | none => some (stamp now f)
      | some g =>
        if g.valid && decide ((stamp now f).threatLevel < g.threatLevel) then some g
        else some (stamp now f) }

/-- Modelled from the spec: `setFLARMWarning` — an inbound alarm of
equal-or-higher `alarmLevel` replaces the current warning and restarts its
expiry timer from the time of receipt; a strictly lower one is ignored. -/
def setFLARMWarning (now : Nat) (w : FLARMWarning) (s : ProviderState) :
    ProviderState :=
  if w.alarmLevel < s.warning.alarmLevel then s
  else { s with warning := w, warningExpiry := some (now + flarmWarningTimeout) }

/-- Modelled from the spec: `resetFLARMWarning` — the warning returns to the
sentinel and its timer is cancelled. -/
def resetFLARMWarning (s : ProviderState) : ProviderState :=
  { s with warning := noWarning, warningExpiry := none }

/-- Modelled from the spec: the warning-expiry timer (`m_FLARMWarningTimer`)
checked at time `now`: once the deadline is reached without a refreshing
report, `resetFLARMWarning` fires. -/
def fireWarningTimer (now : Nat) (s : ProviderState) : ProviderState :=
  match s.warningExpiry with
  | none => s
  | some e => if e ≤ now then resetFLARMWarning s else s

/-- Recompute the cached `m_receiving` flag from the sources' liveness. -/
def recomputeHeartbeat (s : ProviderState) : ProviderState :=
  { s with receiving := s.sources.any fun src => src.live && src.heartbeat }

/-- Replace the `i`-th element of a list by `g` of it. -/
def updateSource : Nat → (Source → Source) → List Source → List Source
  | _, _, [] => []
  | 0, g, x :: xs => g x :: xs
  | n + 1, g, x :: xs => x :: updateSource n g xs

/-- Modelled from the spec: handler `onSourceHeartbeatChanged` for source
`i` now reporting heartbeat state `b` — the aggregate flag is recomputed
whenever any source's heartbeat state changes. -/
def sourceHeartbeatEvent (i : Nat) (b : Bool) (s : ProviderState) :
    ProviderState :=
  recomputeHeartbeat
    { s with sources := updateSource i (fun src => { src with heartbeat := b }) s.sources }

/-- Modelled from the spec: a source that errors or disconnects is removed
from the liveness computation immediately, while its previously-reported
factors are retained until they age out naturally. -/
def sourceErrorEvent (i : Nat) (s : ProviderState) : ProviderState :=
  recomputeHeartbeat
    { s with
      sources := updateSource i (fun _ => { live := false, heartbeat := false }) s.sources }

/-- Modelled from the spec and the header's documentation comment
("If this class is connected to a traffic receiver, this method does
nothing.  Otherwise, it stops any ongoing connection attempt and starts a
new attempt to connect to a potential receiver."): `connectToTrafficReceiver`
— a no-op when connected; otherwise a new connection attempt is started
(every configured DataSource is instructed to connect, counted by
`attemptCount`) and the reconnection supervision timer starts. -/
def connectToTrafficReceiver (s : ProviderState) : ProviderState :=
  if s.connState = ConnState.connected then s
  else
    { s with
      connState := ConnState.connecting
      attemptCount := s.attemptCount + 1
      reconnTimerActive := true }

/-- Modelled from the spec: `disconnectFromTrafficReceiver` — every
DataSource tears down, the supervision and warning timers are cancelled, and
all derived traffic/warning state is cleared to its empty/invalid
baseline. -/
def disconnectFromTrafficReceiver (s : ProviderState) : ProviderState :=
  { trafficObjects := []
    noPosFactor := none
    warning := noWarning
    warningExpiry := none
    sources := s.sources.map fun _ => { live := false, heartbeat := false }
    receiving := false
    connState := ConnState.disconnected
    attemptCount := s.attemptCount
    reconnTimerActive := false }

/-- Modelled from the spec: the reconnection supervision timer — while it
runs and the provider has not reached `Connected`, a retry starts a new
connection attempt; cancelled by disconnect. -/
def retryTick (s : ProviderState) : ProviderState :=
  if s.reconnTimerActive = true ∧ ¬s.connState = ConnState.connected then
    { s with connState := ConnState.connecting, attemptCount := s.attemptCount + 1 }
  else s

/-- The provider's initial state: empty baseline, no sources heard from. -/
def initialState (srcs : List Source) : ProviderState :=
  { trafficObjects := []
    noPosFactor := none
    warning := noWarning
    warningExpiry := none
    sources := srcs
    receiving := false
    connState := ConnState.disconnected
    attemptCount := 0
    reconnTimerActive := false }

/-- A state holding an active warning of level 1, used to exercise the
reject branch of `setFLARMWarning` on a concrete input. -/
def warnState : ProviderState :=
  { initialState [] with warning := ⟨1⟩, warningExpiry := some 3 }

/-- A concrete state in the middle of a connection attempt. -/
def connectingState : ProviderState :=
  { initialState [] with connState := ConnState.connecting }

/-- A concrete state that is connected to a traffic receiver. -/
def connectedState : ProviderState :=
  { initialState [] with connState := ConnState.connected }

/-- Fold an event trace of position-carrying traffic reports (time of
receipt paired with the reported factor) over the provider state. -/
def applyReports (rs : List (Nat × TrafficFactor)) (s : ProviderState) :
    ProviderState :=
  rs.foldl (fun st r => onTrafficFactorWithPosition r.1 r.2 st) s

/-- A concrete factor report used in witnesses. -/
def fA : TrafficFactor := ⟨"A", 3, 100, false, 0⟩

/-- A later concrete report for the same identity as `fA`, used in
witnesses. -/
def fA2 : TrafficFactor := ⟨"A", 2, 50, true, 0⟩

/-- A concrete anonymous (empty-identity) report used in witnesses. -/
def anonF : TrafficFactor := ⟨"", 1, 2, true, 0⟩

/-- A concrete position-less factor used in witnesses. -/
def gB : TrafficFactor := ⟨"B", 1, 5, true, 0⟩

/-- A concrete low-threat report (ThreatLevel 0), arriving first. -/
def lowF : TrafficFactor := ⟨"L", 0, 5, true, 0⟩

/-- A concrete high-threat report (ThreatLevel 4), arriving second. -/
def highF : TrafficFactor := ⟨"H", 4, 5, true, 0⟩

/-- A concrete state holding one factor whose last update (time 0) is
older than the staleness window at time 11. -/
def staleState : ProviderState :=
  { initialState [] with trafficObjects := [⟨"S", 2, 7, true, 0⟩] }

/-! ## Helper lemmas -/

theorem mem_mergeFactor (x f : TrafficFactor) :
    ∀ l : List TrafficFactor, x ∈ mergeFactor f l → x = f ∨ x ∈ l := by
  intro l
  induction l with
  | nil =>
    intro h
    simp only [mergeFactor, List.mem_singleton] at h
    exact Or.inl h
  | cons a as ih =>
    intro h
    simp only [mergeFactor] at h
    by_cases hc : (f.identity == a.identity && !(f.identity == "")) = true
    · rw [if_pos hc] at h
      rcases List.mem_cons.mp h with h1 | h2
      · exact Or.inl h1
      · exact Or.inr (List.mem_cons_of_mem _ h2)
    · rw [if_neg hc] at h
      rcases List.mem_cons.mp h with h1 | h2
      · exact Or.inr (h1 ▸ List.mem_cons_self a as)
      · rcases ih h2 with h3 | h4
        · exact Or.inl h3
        · exact Or.inr (List.mem_cons_of_mem _ h4)

theorem markStale_identity (now : Nat) (x : TrafficFactor) :
    (markStale now x).identity = x.identity := by
  unfold markStale
  split <;> rfl

theorem staleAt_stamp (now : Nat) (f : TrafficFactor) :
    staleAt now (stamp now f) = false := by
  show decide ((stamp now f).timestamp + stalenessWindow < now) = false
  have h : (stamp now f).timestamp = now := rfl
  rw [h]
  exact decide_eq_false (by omega)

theorem markStale_stale_invalid (now : Nat) (y : TrafficFactor)
    (h : staleAt now (markStale now y) = true) :
    (markStale now y).valid = false := by
  unfold markStale at h ⊢
  by_cases hc : staleAt now y = true
  · rw [if_pos hc]
  · rw [if_neg hc] at h
    exact absurd h hc

theorem mem_replaceFirstLess (x f : TrafficFactor) :
    ∀ l : List TrafficFactor, x ∈ replaceFirstLess f l → x = f ∨ x ∈ l := by
  intro l
  induction l with
  | nil =>
    intro h
    simp [replaceFirstLess] at h
  | cons a as ih =>
    intro h
    simp only [replaceFirstLess] at h
    by_cases hc : (!rankLE a f) = true
    · rw [if_pos hc] at h
      rcases List.mem_cons.mp h with h1 | h2
      · exact Or.inl h1
      · exact Or.inr (List.mem_cons_of_mem _ h2)
    · rw [if_neg hc] at h
      rcases List.mem_cons.mp h with h1 | h2
      · exact Or.inr (h1 ▸ List.mem_cons_self a as)
      · rcases ih h2 with h3 | h4
        · exact Or.inl h3
        · exact Or.inr (List.mem_cons_of_mem _ h4)

theorem mem_insertFactor (x f : TrafficFactor) (l : List TrafficFactor)
    (h : x ∈ insertFactor f l) : x = f ∨ x ∈ l := by
  unfold insertFactor at h
  split at h
  · exact mem_mergeFactor x f l h
  · exact mem_replaceFirstLess x f l h

theorem length_mergeFactor_le (f : TrafficFactor) :
    ∀ l : List TrafficFactor, (mergeFactor f l).length ≤ l.length + 1 := by
  intro l
  induction l with
  | nil => simp [mergeFactor]
  | cons a as ih =>
    simp only [mergeFactor]
    split
    · simp only [List.length_cons]
      omega
    · simp only [List.length_cons]
      omega

theorem length_mergeFactor_of_hasIdentity (f : TrafficFactor)
    (hne : (f.identity == "") = false) :
    ∀ l : List TrafficFactor, hasIdentity f l = true →
      (mergeFactor f l).length = l.length := by
  intro l
  induction l with
  | nil =>
    intro h
    simp [hasIdentity] at h
  | cons a as ih =>
    intro h
    simp only [mergeFactor]
    by_cases hc : (f.identity == a.identity) = true
    · rw [if_pos (by rw [hc, hne]; rfl)]
      simp
    · rw [Bool.not_eq_true] at hc
      have hcond : (f.identity == a.identity && !(f.identity == "")) = false := by
        rw [hc]
        rfl
      rw [if_neg (by simp [hcond])]
      have hrest : hasIdentity f as = true := by
        simp only [hasIdentity, List.any_cons, Bool.or_eq_true] at h
        rcases h with h | h
        · exact absurd h (by simp [hc])
        · exact h
      simp only [List.length_cons, ih hrest]

theorem length_replaceFirstLess (f : TrafficFactor) :
    ∀ l : List TrafficFactor, (replaceFirstLess f l).length = l.length := by
  intro l
  induction l with
  | nil => rfl
  | cons a as ih =>
    simp only [replaceFirstLess]
    split
    · simp
    · simp only [List.length_cons, ih]

theorem setFLARMWarning_accept (now : Nat) (w : FLARMWarning) (s : ProviderState)
    (h : s.warning.alarmLevel ≤ w.alarmLevel) :
    setFLARMWarning now w s =
      { s with warning := w, warningExpiry := some (now + flarmWarningTimeout) } := by
  simp only [setFLARMWarning, if_neg (not_lt.mpr h)]

theorem setFLARMWarning_reject (now : Nat) (w : FLARMWarning) (s : ProviderState)
    (h : w.alarmLevel < s.warning.alarmLevel) :
    setFLARMWarning now w s = s := by
  simp only [setFLARMWarning, if_pos h]

theorem onTFWP_single_step (now : Nat) (f : TrafficFactor) (id : String)
    (hid : id ≠ "") (hf : f.identity = id) (s : ProviderState)
    (hs : s.trafficObjects = [] ∨
      ∃ h0, s.trafficObjects = [h0] ∧ h0.identity = id) :
    (onTrafficFactorWithPosition now f s).trafficObjects = [stamp now f] := by
  show insertFactor (stamp now f) ((sweep now s).trafficObjects) = [stamp now f]
  rcases hs with hs | ⟨h0, hs, hid0⟩
  · have h1 : (sweep now s).trafficObjects = [] := by simp [sweep, hs]
    rw [h1]
    rfl
  · have h1 : (sweep now s).trafficObjects = [markStale now h0] := by
      simp [sweep, hs]
    rw [h1]
    have hlen : (decide (([markStale now h0] : List TrafficFactor).length <
        maxTrafficObjects) || (!((stamp now f).identity == "") &&
          hasIdentity (stamp now f) [markStale now h0])) = true := by
      simp [maxTrafficObjects]
    unfold insertFactor
    rw [if_pos hlen]
    have hcond : ((stamp now f).identity == (markStale now h0).identity &&
        !((stamp now f).identity == "")) = true := by
      have hx1 : (stamp now f).identity = id := hf
      have hx0 : (markStale now h0).identity = id := by
        rw [markStale_identity]
        exact hid0
      have hx2 : (id == id) = true := beq_self_eq_true id
      have hx3 : (id == "") = false := beq_eq_false_iff_ne.mpr hid
      rw [hx1, hx0, hx2, hx3]
      rfl
    simp only [mergeFactor, if_pos hcond]

theorem applyReports_single_inv (id : String) (hid : id ≠ "") :
    ∀ (rs : List (Nat × TrafficFactor)) (s : ProviderState),
      (∀ x ∈ rs, x.2.identity = id) →
      (s.trafficObjects = [] ∨
        ∃ h0, s.trafficObjects = [h0] ∧ h0.identity = id) →
      ((applyReports rs s).trafficObjects = [] ∨
        ∃ h0, (applyReports rs s).trafficObjects = [h0] ∧ h0.identity = id) := by
  intro rs
  induction rs with
  | nil => intro s _ hs; exact hs
  | cons r rs ih =>
    intro s hall hs
    have hstep := onTFWP_single_step r.1 r.2 id hid
      (hall r (List.mem_cons_self r rs)) s hs
    exact ih _ (fun x hx => hall x (List.mem_cons_of_mem _ hx))
      (Or.inr ⟨stamp r.1 r.2, hstep, hall r (List.mem_cons_self r rs)⟩)

/-! ## Claims -/

/-- C1: an inbound alarm report whose AlarmLevel is greater than or equal to
the current warning's AlarmLevel replaces the current warning and restarts
its expiry timer from the time of receipt; one with strictly lower
AlarmLevel leaves the current warning unchanged (never downgrades it). -/
theorem C1_warning_replace_or_ignore (s : ProviderState) (now : Nat)
    (w : FLARMWarning) :
    (s.warning.alarmLevel ≤ w.alarmLevel →
      setFLARMWarning now w s =
        { s with warning := w, warningExpiry := some (now + flarmWarningTimeout) }) ∧
    (w.alarmLevel < s.warning.alarmLevel → setFLARMWarning now w s = s) :=
  ⟨fun h => setFLARMWarning_accept now w s h,
   fun h => setFLARMWarning_reject now w s h⟩

/-- Witness for C1 at concrete inputs: level 2 replaces the sentinel and
sets the expiry deadline; level 0 is ignored by an active level-1 warning. -/
theorem C1_warning_replace_or_ignore_witness :
    setFLARMWarning 5 ⟨2⟩ (initialState []) =
      { initialState [] with warning := ⟨2⟩, warningExpiry := some 9 } ∧
    setFLARMWarning 5 ⟨0⟩ warnState = warnState :=
  ⟨(C1_warning_replace_or_ignore (initialState []) 5 ⟨2⟩).1 (by decide),
   (C1_warning_replace_or_ignore warnState 5 ⟨0⟩).2 (by decide)⟩

/-- C2: an accepted warning that receives no refreshing report decays to the
sentinel (`alarmLevel = -1`) exactly when the fixed timeout measured from
the time of receipt has elapsed — never earlier, never later — and an
ignored lower-level alarm leaves the state (hence the expiry deadline)
unchanged. -/
theorem C2_warning_decay (s : ProviderState) (t0 : Nat) (w : FLARMWarning)
    (h : s.warning.alarmLevel ≤ w.alarmLevel) :
    (∀ t, t < t0 + flarmWarningTimeout →
      (fireWarningTimer t (setFLARMWarning t0 w s)).warning = w) ∧
    (∀ t, t0 + flarmWarningTimeout ≤ t →
      (fireWarningTimer t (setFLARMWarning t0 w s)).warning.alarmLevel = -1) ∧
    (∀ t1 (w' : FLARMWarning), w'.alarmLevel < w.alarmLevel →
      setFLARMWarning t1 w' (setFLARMWarning t0 w s) = setFLARMWarning t0 w s) := by
  rw [setFLARMWarning_accept t0 w s h]
  refine ⟨fun t ht => ?_, fun t ht => ?_, fun t1 w' hw => ?_⟩
  · simp only [fireWarningTimer]
    rw [if_neg (by omega)]
  · simp only [fireWarningTimer]
    rw [if_pos ht]
    rfl
  · exact setFLARMWarning_reject t1 w' _ hw

/-- Witness for C2 at concrete inputs: a level-2 warning accepted at time 0
is still present at time 3, has decayed at time 4, and an ignored level-1
report at time 2 changes nothing. -/
theorem C2_warning_decay_witness :
    (fireWarningTimer 3 (setFLARMWarning 0 ⟨2⟩ (initialState []))).warning = ⟨2⟩ ∧
    (fireWarningTimer 4 (setFLARMWarning 0 ⟨2⟩ (initialState []))).warning.alarmLevel = -1 ∧
    setFLARMWarning 2 ⟨1⟩ (setFLARMWarning 0 ⟨2⟩ (initialState [])) =
      setFLARMWarning 0 ⟨2⟩ (initialState []) :=
  have h := C2_warning_decay (initialState []) 0 ⟨2⟩ (by decide)
  ⟨h.1 3 (by decide), h.2.1 4 (by decide), h.2.2 2 ⟨1⟩ (by decide)⟩

/-- C3: after `disconnectFromTrafficReceiver` every read of the derived
state yields the empty baseline — empty ranked list, no position-less
factor, sentinel warning, `receivingHeartbeat = false` — no previously
scheduled timer (warning expiry, reconnection retry) mutates the state
afterwards, and the call is a no-op when already disconnected. -/
theorem C3_disconnect_baseline (s : ProviderState) (now : Nat) :
    (disconnectFromTrafficReceiver s).trafficObjects = [] ∧
    (disconnectFromTrafficReceiver s).noPosFactor = none ∧
    (disconnectFromTrafficReceiver s).warning.alarmLevel = -1 ∧
    receivingHeartbeat (disconnectFromTrafficReceiver s) = false ∧
    fireWarningTimer now (disconnectFromTrafficReceiver s) =
      disconnectFromTrafficReceiver s ∧
    retryTick (disconnectFromTrafficReceiver s) = disconnectFromTrafficReceiver s ∧
    disconnectFromTrafficReceiver (disconnectFromTrafficReceiver s) =
      disconnectFromTrafficReceiver s := by
  refine ⟨rfl, rfl, rfl, rfl, rfl, ?_, ?_⟩
  · simp [retryTick, disconnectFromTrafficReceiver]
  · simp [disconnectFromTrafficReceiver, List.map_map, Function.comp]

/-- Counterexample to C4 as stated: the visible list is not sorted in any
way (header documentation, `TrafficDataProvider.h:92`) — after a valid
ThreatLevel-0 report and then a valid ThreatLevel-4 report, the list holds
them in arrival order, so the factor of strictly higher ThreatLevel ranks
after the one of lower ThreatLevel. -/
theorem C4_higher_threat_after_lower :
    (applyReports [(0, lowF), (1, highF)] (initialState [])).trafficObjects =
      [stamp 0 lowF, stamp 1 highF] ∧
    (stamp 0 lowF).valid = true ∧
    (stamp 1 highF).valid = true ∧
    (stamp 0 lowF).threatLevel < (stamp 1 highF).threatLevel ∧
    ¬ ((applyReports [(0, lowF), (1, highF)]
          (initialState [])).trafficObjects).Pairwise
        (fun a b => b.threatLevel ≤ a.threatLevel) := by
  refine ⟨by decide, by decide, by decide, by decide, by decide⟩

/-- C4 (amended): the visible traffic list is capped at the fixed maximum
size — a report arriving at a full list overwrites a less relevant entry in
place or is dropped — but it is not ordered: the header documents "The list
is not sorted in any way", so consumers must inspect ThreatLevel and
validity of each entry themselves. -/
theorem C4_list_capped (now : Nat) (f : TrafficFactor) (s : ProviderState)
    (h : s.trafficObjects.length ≤ maxTrafficObjects) :
    ((onTrafficFactorWithPosition now f s).trafficObjects).length ≤
      maxTrafficObjects := by
  show (insertFactor (stamp now f) ((sweep now s).trafficObjects)).length ≤ _
  have hlen : ((sweep now s).trafficObjects).length =
      s.trafficObjects.length := by
    simp [sweep]
  unfold insertFactor
  split
  · rename_i hcond
    simp only [Bool.or_eq_true, Bool.and_eq_true, decide_eq_true_eq,
      Bool.not_eq_true'] at hcond
    rcases hcond with hsm | ⟨hne, hhas⟩
    · have h1 := length_mergeFactor_le (stamp now f)
        ((sweep now s).trafficObjects)
      omega
    · have h1 := length_mergeFactor_of_hasIdentity (stamp now f) hne
        ((sweep now s).trafficObjects) hhas
      omega
  · rw [length_replaceFirstLess]
    omega

/-- Witness for the amended C4 at a concrete input: the empty initial list
is within the cap and stays within it after a pass. -/
theorem C4_list_capped_witness :
    (initialState []).trafficObjects.length ≤ maxTrafficObjects ∧
    ((onTrafficFactorWithPosition 0 fA
        (initialState [])).trafficObjects).length ≤ maxTrafficObjects :=
  ⟨by decide, C4_list_capped 0 fA (initialState []) (by decide)⟩

/-- C5: a sequence of reports all carrying the same non-empty identity
leaves exactly one entry for that identity in the ranked list, holding the
fields of the most recent report (with refreshed timestamp and validity);
and an empty/anonymous identity is never merged — `mergeFactor` appends it
as its own slot. -/
theorem C5_identity_merge (id : String) (hid : id ≠ "")
    (rs : List (Nat × TrafficFactor)) (tl : Nat) (fl : TrafficFactor)
    (hall : ∀ x ∈ rs ++ [(tl, fl)], x.2.identity = id) (srcs : List Source) :
    (applyReports (rs ++ [(tl, fl)]) (initialState srcs)).trafficObjects =
      [stamp tl fl] ∧
    ∀ (f : TrafficFactor) (l : List TrafficFactor), f.identity = "" →
      mergeFactor f l = l ++ [f] := by
  constructor
  · have hinv := applyReports_single_inv id hid rs (initialState srcs)
      (fun x hx => hall x (List.mem_append_left _ hx)) (Or.inl rfl)
    have happ : applyReports (rs ++ [(tl, fl)]) (initialState srcs) =
        onTrafficFactorWithPosition tl fl
          (applyReports rs (initialState srcs)) := by
      simp [applyReports, List.foldl_append]
    rw [happ]
    exact onTFWP_single_step tl fl id hid
      (hall (tl, fl) (List.mem_append_right _ (List.mem_singleton_self _))) _ hinv
  · intro f l hf
    induction l with
    | nil => simp [mergeFactor]
    | cons a as ih => simp [mergeFactor, hf, ih]

/-- Witness for C5 at concrete inputs: two successive reports for identity
"A" leave the single entry of the second report; an anonymous report is
appended, not merged. -/
theorem C5_identity_merge_witness :
    (applyReports ([(0, fA)] ++ [(1, fA2)]) (initialState [])).trafficObjects =
      [stamp 1 fA2] ∧
    mergeFactor anonF [gB] = [gB] ++ [anonF] :=
  have h := C5_identity_merge "A" (by decide) [(0, fA)] 1 fA2 (by decide) []
  ⟨h.1, h.2 anonF [gB] (by decide)⟩

/-- Counterexample to C6 as stated: a factor whose last update is older
than the staleness window is not removed by the aggregation pass — it
remains in the visible list, marked invalid, for consumers to skip (header
documentation: "Invalid items should be ignored"). -/
theorem C6_invalid_entry_remains :
    (⟨"S", 2, 7, false, 0⟩ : TrafficFactor) ∈
      (onTrafficFactorWithPosition 11 fA staleState).trafficObjects ∧
    staleAt 11 ⟨"S", 2, 7, false, 0⟩ = true ∧
    (⟨"S", 2, 7, false, 0⟩ : TrafficFactor).valid = false := by
  refine ⟨by decide, by decide, by decide⟩

/-- C6 (amended): on every aggregation pass each tracked factor older than
the fixed staleness window is marked invalid but is not removed — the list
keeps all its entries (the without-position pass leaves it exactly marked),
and the with-position pass retains the position-less slot item, marked —
so consumers must skip invalid entries themselves. -/
theorem C6_stale_marked_invalid (now : Nat) (f : TrafficFactor)
    (s : ProviderState) :
    (∀ x ∈ (onTrafficFactorWithPosition now f s).trafficObjects,
      staleAt now x = true → x.valid = false) ∧
    (onTrafficFactorWithoutPosition now f s).trafficObjects =
      s.trafficObjects.map (markStale now) ∧
    (onTrafficFactorWithPosition now f s).noPosFactor =
      Option.map (markStale now) s.noPosFactor := by
  refine ⟨?_, rfl, rfl⟩
  intro x hx hstale
  have hx0 : x ∈ insertFactor (stamp now f) ((sweep now s).trafficObjects) := hx
  rcases mem_insertFactor x (stamp now f) _ hx0 with h | h
  · rw [h] at hstale
    rw [staleAt_stamp] at hstale
    exact Bool.noConfusion hstale
  · have h2 : x ∈ s.trafficObjects.map (markStale now) := h
    rcases List.mem_map.mp h2 with ⟨y, _, hxy⟩
    rw [← hxy] at hstale ⊢
    exact markStale_stale_invalid now y hstale

/-- Witness for the amended C6 at a concrete input: the stale entry of
`staleState` is still in the list after the pass at time 11, and is marked
invalid. -/
theorem C6_stale_marked_invalid_witness :
    ((⟨"S", 2, 7, false, 0⟩ : TrafficFactor) ∈
      (onTrafficFactorWithPosition 11 fA staleState).trafficObjects) ∧
    staleAt 11 ⟨"S", 2, 7, false, 0⟩ = true ∧
    (⟨"S", 2, 7, false, 0⟩ : TrafficFactor).valid = false :=
  ⟨by decide, by decide,
   (C6_stale_marked_invalid 11 fA staleState).1 ⟨"S", 2, 7, false, 0⟩
     (by decide) (by decide)⟩

/-- Counterexample to C7 as stated: in a state that is already connecting
(but not yet connected), `connectToTrafficReceiver` is not a no-op — per
the header's documentation it stops the ongoing attempt and starts a new
one (here: a new connection attempt is counted and the supervision timer
restarts). -/
theorem C7_connect_not_idempotent_while_connecting :
    ¬ connectToTrafficReceiver connectingState = connectingState := by
  decide

/-- C7 (amended): `connectToTrafficReceiver` is a no-op when already
connected; in every other state — including while a connection attempt is
ongoing — it stops any ongoing attempt and starts a new one (instructing
every configured DataSource to connect, counted by `attemptCount`) and
starts the reconnection supervision timer. -/
theorem C7_connect_noop_only_when_connected (s : ProviderState) :
    (s.connState = ConnState.connected → connectToTrafficReceiver s = s) ∧
    (¬ s.connState = ConnState.connected →
      connectToTrafficReceiver s =
        { s with
          connState := ConnState.connecting
          attemptCount := s.attemptCount + 1
          reconnTimerActive := true }) := by
  constructor
  · intro h
    simp [connectToTrafficReceiver, h]
  · intro h
    simp [connectToTrafficReceiver, h]

/-- Witness for the amended C7 at concrete inputs: a no-op on a connected
state; a fresh attempt from the disconnected initial state. -/
theorem C7_connect_noop_only_when_connected_witness :
    connectToTrafficReceiver connectedState = connectedState ∧
    connectToTrafficReceiver (initialState []) =
      { initialState [] with
        connState := ConnState.connecting
        attemptCount := 1
        reconnTimerActive := true } :=
  ⟨(C7_connect_noop_only_when_connected connectedState).1 rfl,
   (C7_connect_noop_only_when_connected (initialState [])).2 (by decide)⟩

/-- C8: after any heartbeat-state change or source error, the aggregate
`receivingHeartbeat` is true iff at least one source is live and currently
reports heartbeat-level liveness; an errored source drops out of the
computation immediately while its previously-reported factors are retained;
and the flag does not depend on the traffic picture (it can be true while
the list is empty). -/
theorem C8_heartbeat_aggregate (s : ProviderState) (i : Nat) (b : Bool) :
    (receivingHeartbeat (sourceHeartbeatEvent i b s) = true ↔
      ∃ src ∈ (sourceHeartbeatEvent i b s).sources,
        src.live = true ∧ src.heartbeat = true) ∧
    (receivingHeartbeat (sourceErrorEvent i s) = true ↔
      ∃ src ∈ (sourceErrorEvent i s).sources,
        src.live = true ∧ src.heartbeat = true) ∧
    (sourceErrorEvent i s).trafficObjects = s.trafficObjects ∧
    receivingHeartbeat
        (sourceHeartbeatEvent i b { s with trafficObjects := [] }) =
      receivingHeartbeat (sourceHeartbeatEvent i b s) := by
  refine ⟨?_, ?_, rfl, rfl⟩
  · simp [receivingHeartbeat, sourceHeartbeatEvent, recomputeHeartbeat,
      List.any_eq_true, Bool.and_eq_true]
  · simp [receivingHeartbeat, sourceErrorEvent, recomputeHeartbeat,
      List.any_eq_true, Bool.and_eq_true]

/-- C9: `METAR::expiration()` returns the observation time plus 3 hours
when the raw METAR text contains the substring "NOSIG", and the observation
time plus 1.5 hours (5400 seconds) otherwise. -/
theorem C9_metar_expiration (m : METAR) :
    (strContains m.raw_text "NOSIG" = true →
      m.expiration = m.observationTime.addSecs (3 * 60 * 60)) ∧
    (strContains m.raw_text "NOSIG" = false →
      m.expiration = m.observationTime.addSecs 5400) := by
  constructor
  · intro h
    simp [METAR.expiration, h]
  · intro h
    simp [METAR.expiration, h]

/-- Witness for C9 at concrete inputs: a raw text with and one without
"NOSIG". -/
theorem C9_metar_expiration_witness :
    (METAR.mk "EDDF 221220Z 24008KT 9999 NOSIG" (QDateTime.valid 0)).expiration =
      (QDateTime.valid 0).addSecs (3 * 60 * 60) ∧
    (METAR.mk "EDDF 221220Z 24008KT 9999" (QDateTime.valid 0)).expiration =
      (QDateTime.valid 0).addSecs 5400 :=
  ⟨(C9_metar_expiration _).1 (by decide),
   (C9_metar_expiration _).2 (by decide)⟩

/-- C10: `METAR::isExpired()` returns false whenever the expiration time is
invalid — in particular when the observation time is invalid — and when the
expiration time is valid it returns true exactly when the current time is
strictly after it. -/
theorem C10_metar_isExpired (m : METAR) (now : Int) :
    (m.expiration = QDateTime.invalid → m.isExpired now = false) ∧
    (m.observationTime = QDateTime.invalid → m.isExpired now = false) ∧
    (∀ e, m.expiration = QDateTime.valid e →
      (m.isExpired now = true ↔ e < now)) := by
  refine ⟨?_, ?_, ?_⟩
  · intro h
    simp [METAR.isExpired, h]
  · intro h
    have hexp : m.expiration = QDateTime.invalid := by
      simp [METAR.expiration, h, QDateTime.addSecs]
    simp [METAR.isExpired, hexp]
  · intro e h
    simp [METAR.isExpired, h]

/-- Witness for C10 at concrete inputs: an invalid observation time is
never expired (via both the expiration-invalid and the observation-invalid
hypotheses), and a valid one compares strictly against the current time. -/
theorem C10_metar_isExpired_witness :
    (METAR.mk "X" QDateTime.invalid).isExpired 12345 = false ∧
    (METAR.mk "X" QDateTime.invalid).isExpired 99 = false ∧
    ((METAR.mk "X" (QDateTime.valid 0)).isExpired 5400001 = true ↔
      (5400000 : Int) < 5400001) :=
  ⟨(C10_metar_isExpired (METAR.mk "X" QDateTime.invalid) 12345).1 (by decide),
   (C10_metar_isExpired (METAR.mk "X" QDateTime.invalid) 99).2.1 rfl,
   (C10_metar_isExpired (METAR.mk "X" (QDateTime.valid 0)) 5400001).2.2
     5400000 (by decide)⟩

example : strContains "EDDF 221220Z 24008KT NOSIG" "NOSIG" = true := by decide
example : strContains "EDDF 221220Z 24008KT" "NOSIG" = false := by decide
example : (METAR.mk "A NOSIG B" (.valid 0)).expiration = .valid 10800000 := by decide
example : (METAR.mk "A B" (.valid 0)).expiration = .valid 5400000 := by decide
example : (METAR.mk "A B" .invalid).isExpired 99999 = false := by decide
example : (METAR.mk "A B" (.valid 0)).isExpired 5400001 = true := by decide
example : (METAR.mk "A B" (.valid 0)).isExpired 5400000 = false := by decide

end Enroute
